import Mathlib

/-!
Shallow embedding of the mansalibrary repository pieces needed for the
claims: the report routes of src/Backend/routes/reports.js, the auth
middlewares and router of the auth module, the AllStudents search filter,
and the CollectionDue optimistic payment update.

Modelling conventions:
* JavaScript numbers are modelled as rationals; NaN is modelled by an
  Option value being none.  Nonfinite parse results (Infinity) are out of
  scope of the embedding.
* Query and body parameters are Option String (none = absent key).
* Database calls are inputs of the handler: an Except String value whose
  error case models a rejected query promise (err.message).
* Dates follow the proleptic Gregorian calendar and the server clock is
  assumed to run in the UTC timezone, so new Date(y, m, d).toISOString()
  renders the same calendar day that was constructed.
-/

namespace Mansa

/-- JSON values as produced by res.json.  Numbers are rationals; a NaN
appearing in a serialized position is modelled by null, matching
JSON.stringify. -/
inductive Json where
  | str (s : String)
  | num (q : ℚ)
  | bool (b : Bool)
  | null
  | obj (fields : List (String × Json))
  | arr (elems : List Json)

/-- An HTTP response: numeric status code and JSON body. -/
structure Response where
  status : Nat
  body : Json

/-- Body of the form {message: m}. -/
def jsonMsg (m : String) : Json := Json.obj [("message", Json.str m)]

/-- JS truthiness of an optional string: undefined and the empty string are
falsy, every other string is truthy. -/
def jsTruthy : Option String → Bool
  | none => false
  | some s => s != ""

/-- True when the JSON value is an object with a field named message whose
value is a string. -/
def bodyHasMessageString : Json → Bool
  | Json.obj fields =>
      fields.any (fun p => p.1 == "message" &&
        (match p.2 with | Json.str _ => true | _ => false))
  | _ => false

/-! ### JS primitive helpers: whitespace, digits, parseInt, parseFloat -/

/-- Main JS whitespace characters skipped by parseInt and parseFloat. -/
def jsWhitespace (c : Char) : Bool :=
  c = ' ' || c = '\t' || c = '\n' || c = '\r'

/-- Numeric value of a decimal digit character. -/
def digitVal (c : Char) : Nat := c.toNat - 48

/-- Value of a list of decimal digit characters, most significant first. -/
def charsToNat (l : List Char) : Nat :=
  l.foldl (fun n c => n * 10 + digitVal c) 0

/-- Consume an optional leading sign; returns (isNegative, rest). -/
def parseSign : List Char → Bool × List Char
  | '+' :: r => (false, r)
  | '-' :: r => (true, r)
  | l => (false, l)

/-- Split a character list at the end of its leading run of digits. -/
def spanDigits (l : List Char) : List Char × List Char :=
  (l.takeWhile Char.isDigit, l.dropWhile Char.isDigit)

/-- Model of JS parseInt(s, 10): skip whitespace, optional sign, then the
leading run of decimal digits; NaN (none) when no digit is found.  Trailing
characters are ignored. -/
def jsParseInt10 (s : String) : Option Int :=
  let l := s.data.dropWhile jsWhitespace
  let (neg, l1) := parseSign l
  let (ds, _) := spanDigits l1
  if ds.isEmpty then none
  else some (if neg then -(charsToNat ds : Int) else (charsToNat ds : Int))

/-- Model of JS parseFloat for finite decimal literals: skip whitespace,
optional sign, integer digits, optional fraction, optional exponent; NaN
(none) when no digit is found before the exponent.  Trailing characters are
ignored; the Infinity literal is out of scope. -/
def jsParseFloat (s : String) : Option ℚ :=
  let l := s.data.dropWhile jsWhitespace
  let (neg, l1) := parseSign l
  let (ip, l2) := spanDigits l1
  let (fp, l3) :=
    match l2 with
    | '.' :: r => spanDigits r
    | _ => (([] : List Char), l2)
  if ip.isEmpty && fp.isEmpty then none
  else
    let mant : ℚ := (charsToNat ip : ℚ) + (charsToNat fp : ℚ) / (10 : ℚ) ^ fp.length
    let expo : Int :=
      match l3 with
      | c :: r =>
        if c = 'e' || c = 'E' then
          let (eneg, r1) := parseSign r
          let (ed, _) := spanDigits r1
          if ed.isEmpty then 0
          else if eneg then -(charsToNat ed : Int) else (charsToNat ed : Int)
        else 0
      | [] => 0
    let v := mant * (10 : ℚ) ^ expo
    some (if neg then -v else v)

/-- The pattern x || 0 applied to a parse result: NaN becomes 0 (a parsed 0
stays 0, so Option.getD coincides with JS truthiness coalescing here). -/
def jsOr0 (x : Option ℚ) : ℚ := x.getD 0

/-! ### JS string split and the month regex of the report routes -/

/-- Model of String.prototype.split with a single-character separator. -/
def splitOnChar (sep : Char) : List Char → List (List Char)
  | [] => [[]]
  | x :: xs =>
    let r := splitOnChar sep xs
    if x = sep then [] :: r
    else
      match r with
      | h :: t => (x :: h) :: t
      | [] => [[x]]

/-- Test of the regex used by both report routes on the month query
parameter: four digits, a dash, two digits, anchored at both ends. -/
def monthRegexTest (s : String) : Bool :=
  match s.data with
  | [c1, c2, c3, c4, c5, c6, c7] =>
    c1.isDigit && c2.isDigit && c3.isDigit && c4.isDigit &&
    c5 = '-' && c6.isDigit && c7.isDigit
  | _ => false

/-- The destructuring const [year, monthNum] = month.split('-') of the
report routes, as the pair of the first two split components. -/
def reportMonthParts (month : String) : String × String :=
  match splitOnChar '-' month.data with
  | y :: m :: _ => (String.mk y, String.mk m)
  | [y] => (String.mk y, "")
  | [] => ("", "")

/-! ### The JS Date model (UTC) used for the report end date -/

/-- Gregorian leap year test. -/
def isLeap (y : Nat) : Bool :=
  y % 4 = 0 && (y % 100 != 0 || y % 400 = 0)

/-- Number of days of the 1-based month m of year y. -/
def daysInMonth (y m : Nat) : Nat :=
  if m = 2 then (if isLeap y then 29 else 28)
  else if m = 4 || m = 6 || m = 9 || m = 11 then 30
  else 31

/-- The two-digit-year rule of the multi-argument Date constructor: year
values 0 to 99 denote 1900 to 1999. -/
def jsYearAdjust (y : Nat) : Nat := if y ≤ 99 then 1900 + y else y

/-- Model of new Date(y, mIdx, 0) under UTC, after the two-digit-year
adjustment has been applied to y: day 0 of 0-based month index mIdx is the
last day of the previous month, with month overflow normalized.  Returns
the calendar triple (year, 1-based month, day). -/
def jsDateDayZero (y mIdx : Nat) : Nat × Nat × Nat :=
  let t := y * 12 + mIdx
  let yNorm := t / 12
  let mNorm := t % 12
  if mNorm = 0 then (yNorm - 1, 12, 31)
  else (yNorm, mNorm, daysInMonth yNorm mNorm)

/-- Left-pad a string with zeros to the given width. -/
def padZero (w : Nat) (s : String) : String :=
  String.mk (List.replicate (w - s.length) '0') ++ s

/-- The date part of Date.prototype.toISOString for a calendar triple:
four-digit year (expanded-year form with a plus sign beyond 9999), two
digit month and day. -/
def isoDate (y m d : Nat) : String :=
  (if y ≤ 9999 then padZero 4 (toString y) else "+" ++ padZero 6 (toString y)) ++
  "-" ++ padZero 2 (toString m) ++ "-" ++ padZero 2 (toString d)

/-- The startDate template string of both report routes:
interpolation of the two split components around -01. -/
def reportStartDate (month : String) : String :=
  (reportMonthParts month).1 ++ "-" ++ (reportMonthParts month).2 ++ "-01"

/-- The endDate of both report routes: the ISO date part of
new Date(year, monthNum, 0), where year and monthNum are the numeric
values of the split components. -/
def reportEndDate (month : String) : String :=
  let p := reportMonthParts month
  let t := jsDateDayZero (jsYearAdjust (charsToNat p.1.data)) (charsToNat p.2.data)
  isoDate t.1 t.2.1 t.2.2

/-! ### Sessions, users and the auth middlewares -/

/-- The session user written by the login route. -/
structure User where
  id : Int
  username : String
  role : String
deriving DecidableEq

/-- A row of the users table as selected by the login route. -/
structure UserRow where
  id : Int
  username : String
  password : String
  role : String
deriving DecidableEq

/-- Middleware checkAdminOrStaff: 401 without a session user, next() for
the admin and staff roles, 403 otherwise.  some r means the middleware
responded with r and the handler is not reached. -/
def checkAdminOrStaff (session : Option User) : Option Response :=
  match session with
  | none => some ⟨401, jsonMsg "Unauthorized - Please log in"⟩
  | some u =>
    if u.role = "admin" || u.role = "staff" then none
    else some ⟨403, jsonMsg "Forbidden: Admin or Staff access required"⟩

/-- Middleware checkAdmin of the auth module. -/
def checkAdmin (session : Option User) : Option Response :=
  match session with
  | none => some ⟨401, jsonMsg "Unauthorized - Please log in"⟩
  | some u =>
    if u.role ≠ "admin" then some ⟨403, jsonMsg "Forbidden: Admin access required"⟩
    else none

/-- Outcome of a middleware body: an HTTP response, a call to next(), or an
uncaught ReferenceError raised by reading an undeclared identifier. -/
inductive MwOutcome where
  | respond (r : Response)
  | next
  | refError (ident : String)

/-- Identifiers in scope on the line of checkPermission that reads the
identifier permission: the function parameters, its one local binding, the
other top level bindings of the auth module, and the Node module wrapper
and common globals.  The identifier permission is declared nowhere in the
file. -/
def checkPermissionScope : List String :=
  ["req", "res", "next", "userPermissions",
   "checkPermission", "checkAdmin", "checkAdminOrStaff",
   "authenticateUser", "authRouter",
   "require", "module", "exports", "console", "process",
   "__dirname", "__filename"]

/-- Resolution of an identifier against a scope: reading a name bound in
scope succeeds, reading an unbound name raises a ReferenceError. -/
def readIdent (scope : List String) (x : String) : Except String Unit :=
  if x ∈ scope then Except.ok () else Except.error x

/-- Middleware checkPermission: 401 without a session user, next() for the
admin role; for every other role the guard evaluates
userPermissions.includes(permission), whose argument is the identifier
permission, resolved against the scope of the function body.  The ok branch
is the 403 of the source line guarded by that test; it is unreachable
because permission is not in checkPermissionScope. -/
def checkPermission (session : Option User) : MwOutcome :=
  match session with
  | none => MwOutcome.respond ⟨401, jsonMsg "Unauthorized - Please log in"⟩
  | some u =>
    if u.role = "admin" then MwOutcome.next
    else
      match readIdent checkPermissionScope "permission" with
      | Except.error x => MwOutcome.refError x
      | Except.ok _ => MwOutcome.respond ⟨403, jsonMsg "Forbidden - Insufficient permissions"⟩

/-! ### The report routes -/

/-- A SQL parameter as pushed into the params array. -/
inductive SqlParam where
  | s (v : String)
  | i (v : Int)
deriving DecidableEq

/-- The database inputs of the profit-loss route: the outcome of the
collections aggregation query (rows[0].total_collected, a numeric rendered
as text by the driver) and of the expenses aggregation query. -/
structure ReportDb where
  collectedCell : Except String String
  expensesCell : Except String String

/-- Result of dispatching a request to a report route: the response, the
session afterwards, and the params array of the executed queries (none
when control never reached pool.query). -/
structure RouteResult where
  response : Response
  sessionAfter : Option User
  ranQueries : Option (List SqlParam)

/-- The branchId block of the profit-loss handler: when branchId is truthy,
parseInt it in base 10, answer 400 on NaN, otherwise append the number to
the params array. -/
def branchParams (branchId : Option String) (params : List SqlParam) :
    Except Response (List SqlParam) :=
  if jsTruthy branchId then
    match jsParseInt10 (branchId.getD "") with
    | none => Except.error ⟨400, jsonMsg "Invalid branch ID"⟩
    | some n => Except.ok (params ++ [SqlParam.i n])
  else Except.ok params

/-- GET /reports/profit-loss behind checkAdminOrStaff: validate the month
parameter, build the date range and params, optionally add the branch
filter, run the two aggregation queries, and answer with the month, the
two parsed sums coalesced to 0, and their difference; a query rejection is
caught and answered as a 500 with a message. -/
def profitLossRoute (session : Option User) (month branchId : Option String)
    (db : ReportDb) : RouteResult :=
  match checkAdminOrStaff session with
  | some r => ⟨r, session, none⟩
  | none =>
    if !(jsTruthy month && monthRegexTest (month.getD "")) then
      ⟨⟨400, jsonMsg "Invalid month format, use YYYY-MM"⟩, session, none⟩
    else
      let m := month.getD ""
      let startDate := reportStartDate m
      let endDate := reportEndDate m
      match branchParams branchId [SqlParam.s startDate, SqlParam.s endDate] with
      | Except.error r => ⟨r, session, none⟩
      | Except.ok params =>
        match db.collectedCell with
        | Except.error e =>
          ⟨⟨500, Json.obj [("message", Json.str "Server error"), ("error", Json.str e)]⟩,
            session, some params⟩
        | Except.ok cCell =>
          match db.expensesCell with
          | Except.error e =>
            ⟨⟨500, Json.obj [("message", Json.str "Server error"), ("error", Json.str e)]⟩,
              session, some params⟩
          | Except.ok xCell =>
            let totalCollected := jsOr0 (jsParseFloat cCell)
            let totalExpenses := jsOr0 (jsParseFloat xCell)
            ⟨⟨200, Json.obj
                [("month", Json.str m),
                 ("totalCollected", Json.num totalCollected),
                 ("totalExpenses", Json.num totalExpenses),
                 ("profitLoss", Json.num (totalCollected - totalExpenses))]⟩,
              session, some params⟩

/-- A row of the monthly-collections aggregation query; numeric columns are
rendered as text by the driver. -/
structure TxRow where
  student_id : Int
  student_name : String
  email : String
  phone : String
  total_collected : String
  total_due : String
  total_fee : String
  amount_paid : String
  due_amount : String

/-- JSON number of a parse result, with NaN serialized as null. -/
def jsonNum (x : Option ℚ) : Json :=
  match x with
  | some q => Json.num q
  | none => Json.null

/-- The record mapper of the monthly-collections route. -/
def txRowToJson (r : TxRow) : Json :=
  Json.obj
    [("studentId", Json.num (r.student_id : ℚ)),
     ("studentName", Json.str r.student_name),
     ("email", Json.str r.email),
     ("phone", Json.str r.phone),
     ("totalFee", Json.num (jsOr0 (jsParseFloat r.total_fee))),
     ("amountPaid", Json.num (jsOr0 (jsParseFloat r.amount_paid))),
     ("dueAmount", Json.num (jsOr0 (jsParseFloat r.due_amount))),
     ("collected", jsonNum (jsParseFloat r.total_collected)),
     ("due", jsonNum (jsParseFloat r.total_due))]

/-- GET /reports/monthly-collections behind checkAdminOrStaff: validate the
month parameter, build the same date range, run the grouped transaction
query and map its rows; a query rejection is caught and answered as a 500
with a message. -/
def monthlyCollectionsRoute (session : Option User) (month : Option String)
    (db : Except String (List TxRow)) : RouteResult :=
  match checkAdminOrStaff session with
  | some r => ⟨r, session, none⟩
  | none =>
    if !(jsTruthy month && monthRegexTest (month.getD "")) then
      ⟨⟨400, jsonMsg "Invalid month format, use YYYY-MM"⟩, session, none⟩
    else
      let m := month.getD ""
      let startDate := reportStartDate m
      let endDate := reportEndDate m
      match db with
      | Except.error e =>
        ⟨⟨500, Json.obj [("message", Json.str "Server error"), ("error", Json.str e)]⟩,
          session, some [SqlParam.s startDate, SqlParam.s endDate]⟩
      | Except.ok rows =>
        ⟨⟨200, Json.obj [("month", Json.str m), ("records", Json.arr (rows.map txRowToJson))]⟩,
          session, some [SqlParam.s startDate, SqlParam.s endDate]⟩

/-! ### The auth router -/

/-- Result of an auth route: the response and the session afterwards. -/
structure AuthResult where
  response : Response
  sessionAfter : Option User

/-- POST /login: 400 when username or password is falsy, 401 when no row
matches the username or the password differs, otherwise write the session
user and answer 200; a query rejection is caught and answered as a 500
with a message. -/
def loginRoute (sessionIn : Option User) (username password : Option String)
    (db : Except String (List UserRow)) : AuthResult :=
  if !(jsTruthy username) || !(jsTruthy password) then
    ⟨⟨400, jsonMsg "Username and password are required"⟩, sessionIn⟩
  else
    match db with
    | Except.error e =>
      ⟨⟨500, Json.obj [("message", Json.str "Server error during login"), ("error", Json.str e)]⟩,
        sessionIn⟩
    | Except.ok rows =>
      match rows with
      | [] => ⟨⟨401, jsonMsg "Invalid credentials"⟩, sessionIn⟩
      | user :: _ =>
        if password.getD "" ≠ user.password then
          ⟨⟨401, jsonMsg "Invalid credentials"⟩, sessionIn⟩
        else
          ⟨⟨200, Json.obj
              [("message", Json.str "Login successful"),
               ("user", Json.obj
                 [("id", Json.num (user.id : ℚ)),
                  ("username", Json.str user.username),
                  ("role", Json.str user.role)])]⟩,
            some ⟨user.id, user.username, user.role⟩⟩

/-- GET /logout: destroy the session; on a destroy error answer 500 and
leave the session store state as it was, otherwise clear the cookie and
answer 200 with the session destroyed. -/
def logoutRoute (sessionIn : Option User) (destroyErr : Option String) : AuthResult :=
  match destroyErr with
  | some _ => ⟨⟨500, jsonMsg "Could not log out, please try again."⟩, sessionIn⟩
  | none => ⟨⟨200, jsonMsg "Logout successful"⟩, none⟩

/-- GET /status: always 200, reporting whether a session user exists. -/
def statusRoute (sessionIn : Option User) : AuthResult :=
  match sessionIn with
  | some u =>
    ⟨⟨200, Json.obj
        [("isAuthenticated", Json.bool true),
         ("user", Json.obj
           [("id", Json.num (u.id : ℚ)),
            ("username", Json.str u.username),
            ("role", Json.str u.role)])]⟩, sessionIn⟩
  | none =>
    ⟨⟨200, Json.obj [("isAuthenticated", Json.bool false), ("user", Json.null)]⟩, sessionIn⟩

/-! ### The AllStudents search filter -/

/-- A student row as held in the AllStudents page state. -/
structure Student where
  id : Int
  name : String
  phone : String
  registrationNumber : Option String
  membershipEnd : String
  createdAt : String
  status : String
  seatNumber : Option String
deriving DecidableEq

/-- Model of String.prototype.toLowerCase, character by character. -/
def jsToLower (s : String) : String := String.mk (s.data.map Char.toLower)

/-- Model of String.prototype.includes: the needle occurs as a contiguous
substring of the haystack. -/
def jsIncludes (hay needle : String) : Bool := decide (needle.data <:+: hay.data)

/-- The filter predicate of filteredStudents in AllStudents: name, phone,
or truthy registrationNumber contains the search term, all lowercased. -/
def studentMatches (searchTerm : String) (student : Student) : Bool :=
  jsIncludes (jsToLower student.name) (jsToLower searchTerm) ||
  jsIncludes (jsToLower student.phone) (jsToLower searchTerm) ||
  (jsTruthy student.registrationNumber &&
    jsIncludes (jsToLower (student.registrationNumber.getD "")) (jsToLower searchTerm))

/-- filteredStudents of the AllStudents page: Array.prototype.filter of the
sorted students array by the search predicate. -/
def filteredStudents (sortedStudents : List Student) (searchTerm : String) : List Student :=
  sortedStudents.filter (studentMatches searchTerm)

/-- The predicate named by the claim: the name, the phone, or a non-null
registration number contains the search term case-insensitively. -/
def claimStudentMatches (searchTerm : String) (student : Student) : Prop :=
  jsIncludes (jsToLower student.name) (jsToLower searchTerm) = true ∨
  jsIncludes (jsToLower student.phone) (jsToLower searchTerm) = true ∨
  (student.registrationNumber ≠ none ∧
    jsIncludes (jsToLower (student.registrationNumber.getD "")) (jsToLower searchTerm) = true)

/-! ### The CollectionDue optimistic payment update -/

/-- A collection row as held in the CollectionDue page state. -/
structure Collection where
  historyId : Int
  studentId : Int
  name : String
  shiftTitle : Option String
  totalFee : ℚ
  amountPaid : ℚ
  dueAmount : ℚ
  cash : ℚ
  online : ℚ
  securityMoney : ℚ
  remark : String
  createdAt : Option String
  branchId : Option Int
  branchName : Option String
  phone : String
deriving DecidableEq

/-- The two payment methods offered by the modal. -/
inductive PayMethod where
  | cash
  | online
deriving DecidableEq

/-- The object spread applied to a matching entry: add the payment to
amountPaid, subtract it from dueAmount, and add it to the field of the
chosen method only. -/
def applyPayment (method : PayMethod) (payment : ℚ) (c : Collection) : Collection :=
  { c with
    amountPaid := c.amountPaid + payment,
    dueAmount := c.dueAmount - payment,
    cash := match method with | PayMethod.cash => c.cash + payment | PayMethod.online => c.cash,
    online := match method with | PayMethod.online => c.online + payment | PayMethod.cash => c.online }

/-- The optimistic map of handlePaymentSubmit: update every entry whose
historyId equals the selected historyId, keep every other entry. -/
def optimisticUpdate (collections : List Collection) (selected : Collection)
    (method : PayMethod) (payment : ℚ) : List Collection :=
  collections.map (fun c =>
    if c.historyId = selected.historyId then applyPayment method payment c else c)

/-- The collections state after handlePaymentSubmit: guard clauses leave
the state unchanged; a valid payment is applied optimistically and kept
when the API call succeeds, and rolled back to the saved original list
when it fails. -/
def handlePaymentSubmit (collections : List Collection)
    (selectedCollection : Option Collection) (paymentMethod : Option PayMethod)
    (paymentAmount : String) (apiOk : Bool) : List Collection :=
  match selectedCollection, paymentMethod with
  | some sel, some meth =>
    if paymentAmount = "" then collections
    else
      match jsParseFloat paymentAmount with
      | none => collections
      | some payment =>
        if payment ≤ 0 || sel.dueAmount < payment then collections
        else
          let originalCollections := collections
          let updatedCollections := optimisticUpdate collections sel meth payment
          if apiOk then updatedCollections else originalCollections
  | _, _ => collections

/-! ### The error response shape of the spec -/

/-- The shape every unsuccessful response is claimed to have: a status
among 400, 401, 403 and 500 and a string message field in the body. -/
def errorShape (r : Response) : Prop :=
  r.status ≠ 200 →
    (r.status = 400 ∨ r.status = 401 ∨ r.status = 403 ∨ r.status = 500) ∧
    bodyHasMessageString r.body = true

/-! ### Concrete sample values used by witnesses -/

/-- A sample admin session user. -/
def adminUser : User := ⟨1, "root", "admin"⟩

/-- A sample staff session user. -/
def staffUser : User := ⟨2, "desk", "staff"⟩

/-- A sample session user with a role that is neither admin nor staff. -/
def otherUser : User := ⟨3, "guest", "viewer"⟩

/-- A sample pair of successful aggregation query results. -/
def okDb : ReportDb := ⟨Except.ok "10.5", Except.ok "3"⟩

/-- A sample student row. -/
def sampleStudent : Student :=
  ⟨1, "Asha", "9990001111", some "REG7", "2025-01-01", "2024-01-01", "active", none⟩

/-- A sample collection row with a due amount of 60. -/
def sampleCollection : Collection :=
  ⟨11, 2, "Asha", none, 100, 40, 60, 40, 0, 0, "", none, none, none, "9990001111"⟩

/-! ## Helper lemmas -/

/-- A decimal digit character is not the dash. -/
theorem digit_ne_dash {c : Char} (h : c.isDigit = true) : c ≠ '-' := by
  intro hc
  subst hc
  exact absurd h (by decide)

/-- Splitting a four-digits dash two-digits character list at the dash. -/
theorem splitOnChar_month (a b c d e f : Char)
    (ha : a ≠ '-') (hb : b ≠ '-') (hc : c ≠ '-') (hd : d ≠ '-')
    (he : e ≠ '-') (hf : f ≠ '-') :
    splitOnChar '-' [a, b, c, d, '-', e, f] = [[a, b, c, d], [e, f]] := by
  simp [splitOnChar, ha, hb, hc, hd, he, hf]

/-- For a 1-based month between 1 and 12, day 0 of the following month
index is the last day of that month. -/
theorem jsDateDayZero_eq (y m : Nat) (hm1 : 1 ≤ m) (hm2 : m ≤ 12) :
    jsDateDayZero y m = (y, m, daysInMonth y m) := by
  unfold jsDateDayZero
  by_cases h12 : m = 12
  · subst h12
    have h1 : (y * 12 + 12) % 12 = 0 := by omega
    have h2 : (y * 12 + 12) / 12 = y + 1 := by omega
    simp [h1, h2, daysInMonth]
  · have hmod : (y * 12 + m) % 12 = m := by omega
    have hdiv : (y * 12 + m) / 12 = y := by omega
    have hne : ¬ ((y * 12 + m) % 12 = 0) := by omega
    simp [hmod, hdiv, if_neg hne]
    omega

/-- Every string contains the empty string. -/
theorem jsIncludes_empty_needle (s : String) : jsIncludes s "" = true :=
  decide_eq_true List.nil_infix

/-- Only the empty string is contained in the empty string. -/
theorem jsIncludes_empty_hay {t : String} (h : jsIncludes "" t = true) : t = "" := by
  have h1 : t.data <:+: ([] : List Char) := of_decide_eq_true h
  have h2 : t.data = [] := List.infix_nil.mp h1
  cases t with
  | mk l => cases h2; rfl

/-- Lowercasing the empty string yields the empty string, and conversely. -/
theorem jsToLower_eq_empty {t : String} (h : jsToLower t = "") : t = "" := by
  cases t with
  | mk l =>
    have : l.map Char.toLower = [] := congrArg String.data h
    cases List.map_eq_nil_iff.mp this
    rfl

/-- A nonempty character list does not build the empty string. -/
theorem mk_cons_ne_empty (x : Char) (xs : List Char) : String.mk (x :: xs) ≠ "" := by
  intro h
  have : (x :: xs : List Char) = [] := congrArg String.data h
  cases this

/-- The middleware response of checkAdminOrStaff always carries status 401
or 403. -/
theorem checkAdminOrStaff_some_status {s : Option User} {r : Response}
    (h : checkAdminOrStaff s = some r) : r.status = 401 ∨ r.status = 403 := by
  cases s with
  | none =>
    simp only [checkAdminOrStaff] at h
    injection h with h
    subst h
    exact Or.inl rfl
  | some u =>
    simp only [checkAdminOrStaff] at h
    by_cases hrole : (u.role = "admin" || u.role = "staff") = true
    · rw [if_pos hrole] at h
      cases h
    · rw [if_neg hrole] at h
      injection h with h
      subst h
      exact Or.inr rfl

/-- For an admin or staff session user, checkAdminOrStaff calls next. -/
theorem checkAdminOrStaff_pass {u : User} (h : u.role = "admin" ∨ u.role = "staff") :
    checkAdminOrStaff (some u) = none := by
  unfold checkAdminOrStaff
  rcases h with h | h <;> simp [h]

/-- The branchParams block answers 400 with the Invalid branch ID message
exactly when branchId is truthy and parseInt yields NaN. -/
theorem branchParams_error_iff {branchId : Option String} {ps : List SqlParam} {r : Response}  :
    branchParams branchId ps = Except.error r ↔
      (jsTruthy branchId = true ∧ jsParseInt10 (branchId.getD "") = none ∧
       r = ⟨400, jsonMsg "Invalid branch ID"⟩) := by
  unfold branchParams
  by_cases ht : jsTruthy branchId = true
  · rw [if_pos ht]
    cases hp : jsParseInt10 (branchId.getD "") with
    | none =>
      simp only [hp]
      constructor
      · intro h
        injection h with h
        exact ⟨ht, trivial, h.symm⟩
      · rintro ⟨-, -, h⟩
        rw [h]
    | some n => simp [ht, hp]
  · rw [if_neg ht]
    simp [ht]

/-! ## Claim C10 -/

/-- C10: when the updateCollectionPayment API call fails, the collections
state after handlePaymentSubmit is exactly the list it held before the
optimistic update. -/
theorem claim_C10_failed_payment_rollback (collections : List Collection)
    (selectedCollection : Option Collection) (paymentMethod : Option PayMethod)
    (paymentAmount : String) :
    handlePaymentSubmit collections selectedCollection paymentMethod paymentAmount false =
      collections := by
  cases selectedCollection with
  | none => cases paymentMethod <;> rfl
  | some sel =>
    cases paymentMethod with
    | none => rfl
    | some meth =>
      simp only [handlePaymentSubmit]
      by_cases hamt : paymentAmount = ""
      · rw [if_pos hamt]
      · rw [if_neg hamt]
        cases hp : jsParseFloat paymentAmount with
        | none => simp only [hp]
        | some payment =>
          simp only [hp]
          by_cases hcond : (payment ≤ 0 || sel.dueAmount < payment) = true
          · simp [hcond]
          · simp [hcond]

/-! ## Claim C9 -/

/-- C9: for a valid payment (positive and at most the selected due amount)
with a chosen method, the optimistic update maps only the entries whose
historyId matches the selected collection; a matched entry keeps the sum
amountPaid plus dueAmount, gains the payment on amountPaid and on the field
of the chosen method only, loses it on dueAmount, and keeps every other
field; unmatched entries are untouched. -/
theorem claim_C9_optimistic_update (collections : List Collection)
    (sel : Collection) (meth : PayMethod) (amt : String) (payment : ℚ)
    (hparse : jsParseFloat amt = some payment)
    (hpos : 0 < payment) (hle : payment ≤ sel.dueAmount) :
    handlePaymentSubmit collections (some sel) (some meth) amt true =
      collections.map (fun c =>
        if c.historyId = sel.historyId then applyPayment meth payment c else c) ∧
    (∀ c : Collection, c.historyId ≠ sel.historyId →
      (if c.historyId = sel.historyId then applyPayment meth payment c else c) = c) ∧
    (∀ c : Collection,
      (applyPayment meth payment c).amountPaid = c.amountPaid + payment ∧
      (applyPayment meth payment c).dueAmount = c.dueAmount - payment ∧
      (applyPayment meth payment c).amountPaid + (applyPayment meth payment c).dueAmount =
        c.amountPaid + c.dueAmount ∧
      (meth = PayMethod.cash →
        (applyPayment meth payment c).cash = c.cash + payment ∧
        (applyPayment meth payment c).online = c.online) ∧
      (meth = PayMethod.online →
        (applyPayment meth payment c).online = c.online + payment ∧
        (applyPayment meth payment c).cash = c.cash) ∧
      (applyPayment meth payment c).historyId = c.historyId ∧
      (applyPayment meth payment c).studentId = c.studentId ∧
      (applyPayment meth payment c).name = c.name ∧
      (applyPayment meth payment c).shiftTitle = c.shiftTitle ∧
      (applyPayment meth payment c).totalFee = c.totalFee ∧
      (applyPayment meth payment c).securityMoney = c.securityMoney ∧
      (applyPayment meth payment c).remark = c.remark ∧
      (applyPayment meth payment c).createdAt = c.createdAt ∧
      (applyPayment meth payment c).branchId = c.branchId ∧
      (applyPayment meth payment c).branchName = c.branchName ∧
      (applyPayment meth payment c).phone = c.phone) := by
  have hamt : amt ≠ "" := by
    intro h
    rw [h] at hparse
    exact Option.noConfusion ((rfl : jsParseFloat "" = none) ▸ hparse)
  refine ⟨?_, ?_, ?_⟩
  · simp only [handlePaymentSubmit, optimisticUpdate]
    rw [if_neg hamt]
    simp only [hparse]
    have h1 : ¬ payment ≤ 0 := not_le.mpr hpos
    have h2 : ¬ sel.dueAmount < payment := not_lt.mpr hle
    simp [h1, h2]
  · intro c hne
    rw [if_neg hne]
  · intro c
    cases meth <;> simp [applyPayment]

/-- C9 witness: a cash payment of 5 on the sample collection. -/
theorem claim_C9_witness :
    handlePaymentSubmit [sampleCollection] (some sampleCollection)
        (some PayMethod.cash) "5" true =
      [sampleCollection].map (fun c =>
        if c.historyId = sampleCollection.historyId
        then applyPayment PayMethod.cash 5 c else c) :=
  (claim_C9_optimistic_update [sampleCollection] sampleCollection PayMethod.cash "5" 5
    (by simp +decide [jsParseFloat, spanDigits, charsToNat, digitVal, jsWhitespace,
      parseSign, List.dropWhile, List.takeWhile])
    (by norm_num) (by norm_num [sampleCollection])).1

/-! ## Claim C8 -/

/-- C8: for a session user whose role is not admin, checkPermission raises
a ReferenceError on the undeclared identifier permission, so it neither
responds (in particular not with the 403) nor calls next. -/
theorem claim_C8_checkPermission_refError (u : User) (h : u.role ≠ "admin") :
    checkPermission (some u) = MwOutcome.refError "permission" ∧
    (∀ r : Response, checkPermission (some u) ≠ MwOutcome.respond r) ∧
    checkPermission (some u) ≠ MwOutcome.next := by
  have hscope : readIdent checkPermissionScope "permission" = Except.error "permission" := rfl
  have hmain : checkPermission (some u) = MwOutcome.refError "permission" := by
    simp only [checkPermission]
    rw [if_neg h, hscope]
  refine ⟨hmain, ?_, ?_⟩
  · intro r hr
    rw [hmain] at hr
    cases hr
  · intro hr
    rw [hmain] at hr
    cases hr

/-- C8 witness: the staff role triggers the ReferenceError. -/
theorem claim_C8_witness :
    checkPermission (some staffUser) = MwOutcome.refError "permission" :=
  (claim_C8_checkPermission_refError staffUser (by decide)).1

/-! ## Claim C5 -/

/-- C5 counterexample: a successful login writes the session user, so not
every route handler leaves server-side state other than the database
unchanged. -/
theorem claim_C5_counterexample :
    (loginRoute none (some "root") (some "pw")
        (Except.ok [⟨1, "root", "pw", "admin"⟩])).sessionAfter = some ⟨1, "root", "admin"⟩ ∧
    (loginRoute none (some "root") (some "pw")
        (Except.ok [⟨1, "root", "pw", "admin"⟩])).sessionAfter ≠ none := by
  refine ⟨by decide, by decide⟩

/-- C5 amended: the two report routes and the status route leave the
session unchanged, while logout (on a successful destroy) clears it; the
login route is the other exception, per the counterexample. -/
theorem claim_C5_amended :
    (∀ (s : Option User) (month branchId : Option String) (db : ReportDb),
      (profitLossRoute s month branchId db).sessionAfter = s) ∧
    (∀ (s : Option User) (month : Option String) (db : Except String (List TxRow)),
      (monthlyCollectionsRoute s month db).sessionAfter = s) ∧
    (∀ s : Option User, (statusRoute s).sessionAfter = s) ∧
    (∀ s : Option User, (logoutRoute s none).sessionAfter = none) := by
  refine ⟨?_, ?_, ?_, ?_⟩
  · intro s month branchId db
    cases hc : checkAdminOrStaff s with
    | some r => simp [profitLossRoute, hc]
    | none =>
      by_cases hm : (jsTruthy month && monthRegexTest (month.getD "")) = true
      · rcases hbp : branchParams branchId
            [SqlParam.s (reportStartDate (month.getD "")),
             SqlParam.s (reportEndDate (month.getD ""))] with r | ps
        · simp [profitLossRoute, hc, hm, hbp]
        · rcases db with ⟨dc, dx⟩
          cases dc <;> cases dx <;> simp [profitLossRoute, hc, hm, hbp]
      · simp [profitLossRoute, hc, hm]
  · intro s month db
    cases hc : checkAdminOrStaff s with
    | some r => simp [monthlyCollectionsRoute, hc]
    | none =>
      by_cases hm : (jsTruthy month && monthRegexTest (month.getD "")) = true
      · cases db <;> simp [monthlyCollectionsRoute, hc, hm]
      · simp [monthlyCollectionsRoute, hc, hm]
  · intro s
    cases s <;> rfl
  · intro s
    rfl

/-! ## Claim C7 -/

/-- The code filter predicate agrees with the claim predicate: the only
divergence candidate, an empty-string registration number, is falsy in the
code but non-null for the claim, and in that case the name check already
decides both sides. -/
theorem studentMatches_iff (searchTerm : String) (st : Student) :
    studentMatches searchTerm st = true ↔ claimStudentMatches searchTerm st := by
  unfold studentMatches claimStudentMatches
  cases hreg : st.registrationNumber with
  | none => simp [jsTruthy, hreg]
  | some r =>
    by_cases hr : r = ""
    · subst hr
      have h0 : jsToLower "" = "" := rfl
      simp +decide [jsTruthy, hreg, h0, Bool.or_eq_true, Bool.and_eq_true]
      constructor
      · rintro (h | h)
        · exact Or.inl h
        · exact Or.inr (Or.inl h)
      · rintro (h | h | h)
        · exact Or.inl h
        · exact Or.inr h
        · have h1 : jsToLower searchTerm = "" := jsIncludes_empty_hay h
          have h2 : searchTerm = "" := jsToLower_eq_empty h1
          subst h2
          refine Or.inl ?_
          rw [h0]
          exact jsIncludes_empty_needle _
    · have htr : jsTruthy (some r) = true := by
        simp [jsTruthy, bne_iff_ne]
        exact hr
      simp [hreg, htr, Bool.or_eq_true, Bool.and_eq_true]
      exact or_assoc

/-- C7: a student is in filteredStudents exactly when it is in the sorted
students array and its name, phone, or non-null registration number
contains the search term case-insensitively; the filter output is a
sublist of its input, so filtering never adds, duplicates, or reorders
students. -/
theorem claim_C7_filteredStudents (sortedStudents : List Student) (searchTerm : String)
    (st : Student) :
    (st ∈ filteredStudents sortedStudents searchTerm ↔
      st ∈ sortedStudents ∧ claimStudentMatches searchTerm st) ∧
    (filteredStudents sortedStudents searchTerm).Sublist sortedStudents := by
  refine ⟨?_, List.filter_sublist sortedStudents⟩
  simp only [filteredStudents, List.mem_filter]
  exact and_congr_right fun _ => studentMatches_iff searchTerm st

/-- C7 witness: the sample student matches the search term ash. -/
theorem claim_C7_witness :
    (sampleStudent ∈ filteredStudents [sampleStudent] "ash" ↔
      sampleStudent ∈ [sampleStudent] ∧ claimStudentMatches "ash" sampleStudent) ∧
    (filteredStudents [sampleStudent] "ash").Sublist [sampleStudent] :=
  claim_C7_filteredStudents [sampleStudent] "ash" sampleStudent

/-! ## Claim C1 -/

/-- C1: every 200 response of the profit-loss route was produced from two
successful query results and carries exactly the four fields month,
totalCollected, totalExpenses and profitLoss, the two totals being the
parsed sums coalesced to 0 and profitLoss their difference. -/
theorem claim_C1_profit_loss_body (s : Option User) (month branchId : Option String)
    (db : ReportDb)
    (h : (profitLossRoute s month branchId db).response.status = 200) :
    ∃ cCell xCell : String,
      db.collectedCell = Except.ok cCell ∧ db.expensesCell = Except.ok xCell ∧
      (profitLossRoute s month branchId db).response.body = Json.obj
        [("month", Json.str (month.getD "")),
         ("totalCollected", Json.num (jsOr0 (jsParseFloat cCell))),
         ("totalExpenses", Json.num (jsOr0 (jsParseFloat xCell))),
         ("profitLoss",
           Json.num (jsOr0 (jsParseFloat cCell) - jsOr0 (jsParseFloat xCell)))] := by
  cases hc : checkAdminOrStaff s with
  | some r =>
    rw [show profitLossRoute s month branchId db = ⟨r, s, none⟩ from by
      simp [profitLossRoute, hc]] at h
    rcases checkAdminOrStaff_some_status hc with h4 | h4 <;> rw [h4] at h <;> cases h
  | none =>
    by_cases hm : (jsTruthy month && monthRegexTest (month.getD "")) = true
    · rcases hbp : branchParams branchId
          [SqlParam.s (reportStartDate (month.getD "")),
           SqlParam.s (reportEndDate (month.getD ""))] with r | ps
      · obtain ⟨-, -, hr⟩ := branchParams_error_iff.mp hbp
        rw [show profitLossRoute s month branchId db = ⟨r, s, none⟩ from by
          simp [profitLossRoute, hc, hm, hbp]] at h
        rw [hr] at h
        cases h
      · rcases db with ⟨dc, dx⟩
        cases dc with
        | error e => simp [profitLossRoute, hc, hm, hbp] at h
        | ok cCell =>
          cases dx with
          | error e => simp [profitLossRoute, hc, hm, hbp] at h
          | ok xCell =>
            refine ⟨cCell, xCell, rfl, rfl, ?_⟩
            simp [profitLossRoute, hc, hm, hbp]
    · simp [profitLossRoute, hc, hm] at h

/-- C1 witness: a successful request with parsed sums 10.5 and 3. -/
theorem claim_C1_witness :
    ∃ cCell xCell : String,
      okDb.collectedCell = Except.ok cCell ∧ okDb.expensesCell = Except.ok xCell ∧
      (profitLossRoute (some adminUser) (some "2024-01") none okDb).response.body = Json.obj
        [("month", Json.str ((some "2024-01").getD "")),
         ("totalCollected", Json.num (jsOr0 (jsParseFloat cCell))),
         ("totalExpenses", Json.num (jsOr0 (jsParseFloat xCell))),
         ("profitLoss",
           Json.num (jsOr0 (jsParseFloat cCell) - jsOr0 (jsParseFloat xCell)))] :=
  claim_C1_profit_loss_body (some adminUser) (some "2024-01") none okDb rfl

/-! ## Claim C2 -/

/-- C2: for both report routes, a request without a session user is
answered 401, a session role outside admin and staff is answered 403, and
the report queries run only under an admin or staff session. -/
theorem claim_C2_report_auth (s : Option User) (month branchId : Option String)
    (db : ReportDb) (db2 : Except String (List TxRow)) :
    (s = none →
      (profitLossRoute s month branchId db).response.status = 401 ∧
      (monthlyCollectionsRoute s month db2).response.status = 401) ∧
    (∀ u : User, s = some u → u.role ≠ "admin" → u.role ≠ "staff" →
      (profitLossRoute s month branchId db).response.status = 403 ∧
      (monthlyCollectionsRoute s month db2).response.status = 403) ∧
    ((profitLossRoute s month branchId db).ranQueries ≠ none →
      ∃ u : User, s = some u ∧ (u.role = "admin" ∨ u.role = "staff")) ∧
    ((monthlyCollectionsRoute s month db2).ranQueries ≠ none →
      ∃ u : User, s = some u ∧ (u.role = "admin" ∨ u.role = "staff")) := by
  refine ⟨?_, ?_, ?_, ?_⟩
  · rintro rfl
    constructor <;> simp [profitLossRoute, monthlyCollectionsRoute, checkAdminOrStaff]
  · rintro u rfl hadmin hstaff
    have hrole : (u.role = "admin" || u.role = "staff") = false := by
      simp [hadmin, hstaff]
    have hc : checkAdminOrStaff (some u) =
        some ⟨403, jsonMsg "Forbidden: Admin or Staff access required"⟩ := by
      simp [checkAdminOrStaff, hrole]
    constructor <;> simp [profitLossRoute, monthlyCollectionsRoute, hc]
  · intro h
    cases s with
    | none =>
      exact absurd (by simp [profitLossRoute, checkAdminOrStaff]) h
    | some u =>
      by_cases hrole : (u.role = "admin" || u.role = "staff") = true
      · exact ⟨u, rfl, by simpa using hrole⟩
      · have hc : checkAdminOrStaff (some u) =
            some ⟨403, jsonMsg "Forbidden: Admin or Staff access required"⟩ := by
          simp [checkAdminOrStaff, hrole]
        exact absurd (by simp [profitLossRoute, hc]) h
  · intro h
    cases s with
    | none =>
      exact absurd (by simp [monthlyCollectionsRoute, checkAdminOrStaff]) h
    | some u =>
      by_cases hrole : (u.role = "admin" || u.role = "staff") = true
      · exact ⟨u, rfl, by simpa using hrole⟩
      · have hc : checkAdminOrStaff (some u) =
            some ⟨403, jsonMsg "Forbidden: Admin or Staff access required"⟩ := by
          simp [checkAdminOrStaff, hrole]
        exact absurd (by simp [monthlyCollectionsRoute, hc]) h

/-- C2 witness: both routes answer 401 without a session user. -/
theorem claim_C2_witness :
    (profitLossRoute none (some "2024-01") none okDb).response.status = 401 ∧
    (monthlyCollectionsRoute none (some "2024-01") (Except.ok [])).response.status = 401 :=
  (claim_C2_report_auth none (some "2024-01") none okDb (Except.ok [])).1 rfl

/-! ## Claim C4 -/

/-- C4 counterexample: with a valid month and a branchId key whose value is
the empty string, parseInt yields NaN, yet the route answers 200 rather
than 400: the empty string is falsy, so the branch filter block is
skipped. -/
theorem claim_C4_counterexample :
    jsParseInt10 "" = none ∧ monthRegexTest "2024-05" = true ∧
    (profitLossRoute (some adminUser) (some "2024-05") (some "") okDb).response.status = 200 :=
  ⟨rfl, rfl, rfl⟩

/-- C4 amended: for a request passing the admin-or-staff check, the route
answers 400 with the Invalid month format message exactly when the month
parameter is falsy or fails the regex, answers 400 with the Invalid branch
ID message exactly when the month is valid and branchId is truthy (present
and non-empty) with a NaN parseInt, and produces no other 400. -/
theorem claim_C4_amended (u : User) (month branchId : Option String) (db : ReportDb)
    (hrole : u.role = "admin" ∨ u.role = "staff") :
    (((profitLossRoute (some u) month branchId db).response.status = 400 ∧
        (profitLossRoute (some u) month branchId db).response.body =
          jsonMsg "Invalid month format, use YYYY-MM") ↔
      ¬ (jsTruthy month && monthRegexTest (month.getD "")) = true) ∧
    (((profitLossRoute (some u) month branchId db).response.status = 400 ∧
        (profitLossRoute (some u) month branchId db).response.body =
          jsonMsg "Invalid branch ID") ↔
      ((jsTruthy month && monthRegexTest (month.getD "")) = true ∧
        jsTruthy branchId = true ∧ jsParseInt10 (branchId.getD "") = none)) ∧
    ((profitLossRoute (some u) month branchId db).response.status = 400 →
      (profitLossRoute (some u) month branchId db).response.body =
          jsonMsg "Invalid month format, use YYYY-MM" ∨
        (profitLossRoute (some u) month branchId db).response.body =
          jsonMsg "Invalid branch ID") := by
  have hc : checkAdminOrStaff (some u) = none := checkAdminOrStaff_pass hrole
  by_cases hm : (jsTruthy month && monthRegexTest (month.getD "")) = true
  · rcases hbp : branchParams branchId
        [SqlParam.s (reportStartDate (month.getD "")),
         SqlParam.s (reportEndDate (month.getD ""))] with r | ps
    · obtain ⟨htb, hpn, hr⟩ := branchParams_error_iff.mp hbp
      subst hr
      refine ⟨?_, ?_, ?_⟩
      · simp +decide [profitLossRoute, hc, hm, hbp, jsonMsg]
      · simp [profitLossRoute, hc, hm, hbp, htb, hpn]
      · intro h
        right
        simp [profitLossRoute, hc, hm, hbp]
    · have hbranch : ¬ (jsTruthy branchId = true ∧ jsParseInt10 (branchId.getD "") = none) := by
        rintro ⟨htb, hpn⟩
        rw [show branchParams branchId
            [SqlParam.s (reportStartDate (month.getD "")),
             SqlParam.s (reportEndDate (month.getD ""))] =
            Except.error ⟨400, jsonMsg "Invalid branch ID"⟩ from
          branchParams_error_iff.mpr ⟨htb, hpn, rfl⟩] at hbp
        cases hbp
      rcases db with ⟨dc, dx⟩
      cases dc with
      | error e =>
        refine ⟨?_, ?_, ?_⟩
        · simp [profitLossRoute, hc, hm, hbp, hm]
        · simp only [profitLossRoute, hc, hbp, hm]
          simp [hbranch, hm]
        · intro h
          simp [profitLossRoute, hc, hm, hbp] at h
      | ok cCell =>
        cases dx with
        | error e =>
          refine ⟨?_, ?_, ?_⟩
          · simp [profitLossRoute, hc, hm, hbp]
          · simp only [profitLossRoute, hc, hbp, hm]
            simp [hbranch, hm]
          · intro h
            simp [profitLossRoute, hc, hm, hbp] at h
        | ok xCell =>
          refine ⟨?_, ?_, ?_⟩
          · simp [profitLossRoute, hc, hm, hbp]
          · simp only [profitLossRoute, hc, hbp, hm]
            simp [hbranch, hm]
          · intro h
            simp [profitLossRoute, hc, hm, hbp] at h
  · refine ⟨?_, ?_, ?_⟩
    · simp [profitLossRoute, hc, hm]
    · simp +decide [profitLossRoute, hc, hm, jsonMsg]
    · intro h
      left
      simp [profitLossRoute, hc, hm]

/-- C4 witness: a missing month parameter is answered 400 with the month
format message. -/
theorem claim_C4_witness :
    (profitLossRoute (some adminUser) none none okDb).response.status = 400 ∧
    (profitLossRoute (some adminUser) none none okDb).response.body =
      jsonMsg "Invalid month format, use YYYY-MM" :=
  ((claim_C4_amended adminUser none none okDb (Or.inl rfl)).1).mpr (by decide)

/-! ## Claim C6 -/

/-- A response built with a standard error status and a message body has
the error shape. -/
theorem errorShape_of (st : Nat) (b : Json)
    (h : st = 400 ∨ st = 401 ∨ st = 403 ∨ st = 500)
    (hb : bodyHasMessageString b = true) : errorShape ⟨st, b⟩ :=
  fun _ => ⟨h, hb⟩

/-- A 200 response vacuously has the error shape. -/
theorem errorShape_200 (b : Json) : errorShape ⟨200, b⟩ :=
  fun h => absurd rfl h

/-- The middleware responses of checkAdminOrStaff have the error shape. -/
theorem checkAdminOrStaff_some_errorShape {s : Option User} {r : Response}
    (h : checkAdminOrStaff s = some r) : errorShape r := by
  cases s with
  | none =>
    simp only [checkAdminOrStaff] at h
    injection h with h
    subst h
    exact errorShape_of _ _ (Or.inr (Or.inl rfl)) rfl
  | some u =>
    simp only [checkAdminOrStaff] at h
    by_cases hrole : (u.role = "admin" || u.role = "staff") = true
    · rw [if_pos hrole] at h
      cases h
    · rw [if_neg hrole] at h
      injection h with h
      subst h
      exact errorShape_of _ _ (Or.inr (Or.inr (Or.inl rfl))) rfl

/-- C6: every response of the modelled backend routes that is not a 200
has a status among 400, 401, 403 and 500 and a string message field in its
JSON body. -/
theorem claim_C6_error_responses (s : Option User) (month branchId : Option String)
    (db : ReportDb) (db2 : Except String (List TxRow))
    (username password : Option String) (dbu : Except String (List UserRow))
    (destroyErr : Option String) :
    errorShape (profitLossRoute s month branchId db).response ∧
    errorShape (monthlyCollectionsRoute s month db2).response ∧
    errorShape (loginRoute s username password dbu).response ∧
    errorShape (logoutRoute s destroyErr).response ∧
    errorShape (statusRoute s).response := by
  refine ⟨?_, ?_, ?_, ?_, ?_⟩
  · cases hc : checkAdminOrStaff s with
    | some r =>
      rw [show profitLossRoute s month branchId db = ⟨r, s, none⟩ from by
        simp [profitLossRoute, hc]]
      exact checkAdminOrStaff_some_errorShape hc
    | none =>
      by_cases hm : (jsTruthy month && monthRegexTest (month.getD "")) = true
      · rcases hbp : branchParams branchId
            [SqlParam.s (reportStartDate (month.getD "")),
             SqlParam.s (reportEndDate (month.getD ""))] with r | ps
        · obtain ⟨-, -, hr⟩ := branchParams_error_iff.mp hbp
          rw [show profitLossRoute s month branchId db = ⟨r, s, none⟩ from by
            simp [profitLossRoute, hc, hm, hbp]]
          rw [hr]
          exact errorShape_of _ _ (Or.inl rfl) rfl
        · rcases db with ⟨dc, dx⟩
          cases dc with
          | error e =>
            rw [show (profitLossRoute s month branchId (ReportDb.mk (Except.error e) dx)).response =
                ⟨500, Json.obj [("message", Json.str "Server error"), ("error", Json.str e)]⟩ from by
              simp [profitLossRoute, hc, hm, hbp]]
            exact errorShape_of _ _ (Or.inr (Or.inr (Or.inr rfl))) rfl
          | ok cCell =>
            cases dx with
            | error e =>
              rw [show (profitLossRoute s month branchId
                    (ReportDb.mk (Except.ok cCell) (Except.error e))).response =
                  ⟨500, Json.obj [("message", Json.str "Server error"), ("error", Json.str e)]⟩ from by
                simp [profitLossRoute, hc, hm, hbp]]
              exact errorShape_of _ _ (Or.inr (Or.inr (Or.inr rfl))) rfl
            | ok xCell =>
              intro habs
              exact absurd (by simp [profitLossRoute, hc, hm, hbp]) habs
      · rw [show profitLossRoute s month branchId db =
            ⟨⟨400, jsonMsg "Invalid month format, use YYYY-MM"⟩, s, none⟩ from by
          simp [profitLossRoute, hc, hm]]
        exact errorShape_of _ _ (Or.inl rfl) rfl
  · cases hc : checkAdminOrStaff s with
    | some r =>
      rw [show monthlyCollectionsRoute s month db2 = ⟨r, s, none⟩ from by
        simp [monthlyCollectionsRoute, hc]]
      exact checkAdminOrStaff_some_errorShape hc
    | none =>
      by_cases hm : (jsTruthy month && monthRegexTest (month.getD "")) = true
      · cases db2 with
        | error e =>
          rw [show (monthlyCollectionsRoute s month (Except.error e)).response =
              ⟨500, Json.obj [("message", Json.str "Server error"), ("error", Json.str e)]⟩ from by
            simp [monthlyCollectionsRoute, hc, hm]]
          exact errorShape_of _ _ (Or.inr (Or.inr (Or.inr rfl))) rfl
        | ok rows =>
          intro habs
          exact absurd (by simp [monthlyCollectionsRoute, hc, hm]) habs
      · rw [show monthlyCollectionsRoute s month db2 =
            ⟨⟨400, jsonMsg "Invalid month format, use YYYY-MM"⟩, s, none⟩ from by
          simp [monthlyCollectionsRoute, hc, hm]]
        exact errorShape_of _ _ (Or.inl rfl) rfl
  · by_cases hcred : (!(jsTruthy username) || !(jsTruthy password)) = true
    · rw [show loginRoute s username password dbu =
          ⟨⟨400, jsonMsg "Username and password are required"⟩, s⟩ from by
        simp only [loginRoute]
        rw [if_pos hcred]]
      exact errorShape_of _ _ (Or.inl rfl) rfl
    · cases dbu with
      | error e =>
        rw [show (loginRoute s username password (Except.error e)).response =
            ⟨500, Json.obj [("message", Json.str "Server error during login"),
              ("error", Json.str e)]⟩ from by
          simp only [loginRoute]
          rw [if_neg hcred]]
        exact errorShape_of _ _ (Or.inr (Or.inr (Or.inr rfl))) rfl
      | ok rows =>
        cases rows with
        | nil =>
          rw [show (loginRoute s username password (Except.ok [])).response =
              ⟨401, jsonMsg "Invalid credentials"⟩ from by
            simp only [loginRoute]
            rw [if_neg hcred]]
          exact errorShape_of _ _ (Or.inr (Or.inl rfl)) rfl
        | cons user rest =>
          by_cases hpw : password.getD "" ≠ user.password
          · rw [show (loginRoute s username password (Except.ok (user :: rest))).response =
                ⟨401, jsonMsg "Invalid credentials"⟩ from by
              simp only [loginRoute]
              rw [if_neg hcred, if_pos hpw]]
            exact errorShape_of _ _ (Or.inr (Or.inl rfl)) rfl
          · intro habs
            refine absurd ?_ habs
            simp only [loginRoute]
            rw [if_neg hcred, if_neg hpw]
  · cases destroyErr with
    | some e => exact errorShape_of _ _ (Or.inr (Or.inr (Or.inr rfl))) rfl
    | none => exact errorShape_200 _
  · cases s with
    | some u => exact errorShape_200 _
    | none => exact errorShape_200 _

/-- C6 witness: an unauthenticated profit-loss request yields a 401 with a
message string. -/
theorem claim_C6_witness :
    ((profitLossRoute none none none okDb).response.status = 400 ∨
      (profitLossRoute none none none okDb).response.status = 401 ∨
      (profitLossRoute none none none okDb).response.status = 403 ∨
      (profitLossRoute none none none okDb).response.status = 500) ∧
    bodyHasMessageString (profitLossRoute none none none okDb).response.body = true :=
  (claim_C6_error_responses none none none okDb (Except.ok []) none none
    (Except.ok []) none).1 (by decide)

/-! ## Claim C3 -/

/-- C3 counterexample: the month 0099-02 matches the regex and its last
calendar day is 0099-02-28, yet the routes compute the end date
1999-02-28, because the Date constructor maps two-digit years into
1900-1999. -/
theorem claim_C3_counterexample :
    monthRegexTest "0099-02" = true ∧
    reportEndDate "0099-02" = "1999-02-28" ∧
    isoDate 99 2 (daysInMonth 99 2) = "0099-02-28" ∧
    reportEndDate "0099-02" ≠ isoDate 99 2 (daysInMonth 99 2) := by
  refine ⟨rfl, rfl, rfl, by decide⟩

/-- C3 amended: for every month string whose four-digit year is at least
0100 and whose month number is between 01 and 12, both report routes build
the range from the first calendar day of that month through its last
calendar day inclusive, handling month lengths and leap years, under the
UTC clock assumption of the embedding. -/
theorem claim_C3_amended (a b c d e f : Char)
    (ha : a.isDigit = true) (hb : b.isDigit = true) (hc : c.isDigit = true)
    (hd : d.isDigit = true) (he : e.isDigit = true) (hf : f.isDigit = true)
    (hy : 100 ≤ charsToNat [a, b, c, d])
    (hm1 : 1 ≤ charsToNat [e, f]) (hm2 : charsToNat [e, f] ≤ 12) :
    monthRegexTest (String.mk [a, b, c, d, '-', e, f]) = true ∧
    reportStartDate (String.mk [a, b, c, d, '-', e, f]) =
      String.mk [a, b, c, d] ++ "-" ++ String.mk [e, f] ++ "-01" ∧
    reportEndDate (String.mk [a, b, c, d, '-', e, f]) =
      isoDate (charsToNat [a, b, c, d]) (charsToNat [e, f])
        (daysInMonth (charsToNat [a, b, c, d]) (charsToNat [e, f])) ∧
    (∀ db : ReportDb,
      (profitLossRoute (some adminUser)
          (some (String.mk [a, b, c, d, '-', e, f])) none db).ranQueries =
        some [SqlParam.s (reportStartDate (String.mk [a, b, c, d, '-', e, f])),
          SqlParam.s (reportEndDate (String.mk [a, b, c, d, '-', e, f]))]) ∧
    (∀ db2 : Except String (List TxRow),
      (monthlyCollectionsRoute (some adminUser)
          (some (String.mk [a, b, c, d, '-', e, f])) db2).ranQueries =
        some [SqlParam.s (reportStartDate (String.mk [a, b, c, d, '-', e, f])),
          SqlParam.s (reportEndDate (String.mk [a, b, c, d, '-', e, f]))]) := by
  have hsplit : splitOnChar '-' [a, b, c, d, '-', e, f] = [[a, b, c, d], [e, f]] :=
    splitOnChar_month a b c d e f (digit_ne_dash ha) (digit_ne_dash hb) (digit_ne_dash hc)
      (digit_ne_dash hd) (digit_ne_dash he) (digit_ne_dash hf)
  have hparts : reportMonthParts (String.mk [a, b, c, d, '-', e, f]) =
      (String.mk [a, b, c, d], String.mk [e, f]) := by
    simp [reportMonthParts, hsplit]
  have hregex : monthRegexTest (String.mk [a, b, c, d, '-', e, f]) = true := by
    simp [monthRegexTest, ha, hb, hc, hd, he, hf]
  have hadj : jsYearAdjust (charsToNat [a, b, c, d]) = charsToNat [a, b, c, d] := by
    unfold jsYearAdjust
    rw [if_neg (by omega)]
  have hend : reportEndDate (String.mk [a, b, c, d, '-', e, f]) =
      isoDate (charsToNat [a, b, c, d]) (charsToNat [e, f])
        (daysInMonth (charsToNat [a, b, c, d]) (charsToNat [e, f])) := by
    simp only [reportEndDate, hparts]
    rw [hadj, jsDateDayZero_eq _ _ hm1 hm2]
  have hstart : reportStartDate (String.mk [a, b, c, d, '-', e, f]) =
      String.mk [a, b, c, d] ++ "-" ++ String.mk [e, f] ++ "-01" := by
    simp [reportStartDate, hparts]
  have hc0 : checkAdminOrStaff (some adminUser) = none := checkAdminOrStaff_pass (Or.inl rfl)
  refine ⟨hregex, hstart, hend, ?_, ?_⟩
  · intro db
    rcases db with ⟨dc, dx⟩
    cases dc <;> cases dx <;>
      simp [profitLossRoute, hc0, hregex, mk_cons_ne_empty a [b, c, d, '-', e, f],
        branchParams, jsTruthy]
  · intro db2
    cases db2 <;>
      simp [monthlyCollectionsRoute, hc0, hregex, jsTruthy,
        mk_cons_ne_empty a [b, c, d, '-', e, f]]

/-- C3 witness: the leap month 2024-02 is handled from 2024-02-01 through
2024-02-29. -/
theorem claim_C3_witness :
    monthRegexTest (String.mk ['2', '0', '2', '4', '-', '0', '2']) = true ∧
    reportStartDate (String.mk ['2', '0', '2', '4', '-', '0', '2']) =
      String.mk ['2', '0', '2', '4'] ++ "-" ++ String.mk ['0', '2'] ++ "-01" ∧
    reportEndDate (String.mk ['2', '0', '2', '4', '-', '0', '2']) =
      isoDate (charsToNat ['2', '0', '2', '4']) (charsToNat ['0', '2'])
        (daysInMonth (charsToNat ['2', '0', '2', '4']) (charsToNat ['0', '2'])) := by
  have h := claim_C3_amended '2' '0' '2' '4' '0' '2' (by decide) (by decide) (by decide)
    (by decide) (by decide) (by decide) (by decide) (by decide) (by decide)
  exact ⟨h.1, h.2.1, h.2.2.1⟩

end Mansa
